import Mathlib

/-!
# Verification of the gpsdio stream pipeline and schema engine

A shallow embedding of the SkyTruth/gpsdio core (`gpsdio/core.py`,
`gpsdio/schema.py`) together with theorems settling the specification
claims about it.

Modelling conventions:
* Python dictionaries are modelled as insertion-ordered association lists
  (CPython 3.7+ preserves insertion order).  Key lookup walks the list,
  updates replace in place, inserts append at the end — exactly the
  observable dict behaviour for the operations the code performs.
* Python exceptions are modelled with an explicit error type `PyErr` and
  fallible operations return `Except PyErr _`.
* Machine integers do not occur (Python ints are unbounded); numeric
  message values are modelled by `Int`.
-/

/-- A naive calendar timestamp, the payload of a parsed `timestamp` field
(Python `datetime.datetime`). -/
structure DateTime where
  year : Nat
  month : Nat
  day : Nat
  hour : Nat
  minute : Nat
  second : Nat
  microsecond : Nat
deriving Repr, DecidableEq

/-- Python runtime errors that the embedded code can raise. -/
inductive PyErr where
  | typeError
  | valueError
  | keyError
  | nameError
  | ioError (msg : String)
deriving Repr, DecidableEq

/-- Python values as they occur in gpsdio messages: ints, strings, bools,
`None`, parsed datetimes, and dictionaries (a message itself is bound to
the name `msg` in the filter evaluation scope). -/
inductive Value where
  | vInt : Int → Value
  | vStr : String → Value
  | vBool : Bool → Value
  | vNone : Value
  | vDT : DateTime → Value
  | vDict : List (String × Value) → Value
deriving Repr

/-- A gpsdio message: a flat field-name → value dictionary. -/
abbrev Msg : Type := List (String × Value)

mutual

/-- Python `==` on values.  Mixed-type comparisons are `False`, never an
error.  (Python dict equality ignores key order; the messages compared by
any theorem below differ in a value at a shared key, where the
order-sensitive structural equality used here agrees with Python.) -/
def valueEq : Value → Value → Bool
  | .vInt a, .vInt b => a == b
  | .vStr a, .vStr b => a == b
  | .vBool a, .vBool b => a == b
  | .vInt a, .vBool b => a == (if b then 1 else 0)
  | .vBool a, .vInt b => (if a then (1 : Int) else 0) == b
  | .vNone, .vNone => true
  | .vDT a, .vDT b => a == b
  | .vDict a, .vDict b => msgEq a b
  | _, _ => false

/-- Python `==` on two dictionaries (see `valueEq`). -/
def msgEq : List (String × Value) → List (String × Value) → Bool
  | [], [] => true
  | (k1, v1) :: r1, (k2, v2) :: r2 => k1 == k2 && valueEq v1 v2 && msgEq r1 r2
  | _, _ => false

end

/-- Lexicographic (chronological) comparison of two datetimes, as Python
compares `datetime` objects. -/
def dtLtB (a b : DateTime) : Bool :=
  a.year < b.year || (a.year == b.year && (
  a.month < b.month || (a.month == b.month && (
  a.day < b.day || (a.day == b.day && (
  a.hour < b.hour || (a.hour == b.hour && (
  a.minute < b.minute || (a.minute == b.minute && (
  a.second < b.second || (a.second == b.second &&
  a.microsecond < b.microsecond)))))))))))

/-- Python `<` on values: defined within numbers (bool is an int subtype),
within strings, and within datetimes; any other pairing raises
`TypeError` — in particular two dictionaries never compare with `<`
unless short-circuited away by `==` first. -/
def valueLt : Value → Value → Except PyErr Bool
  | .vInt a, .vInt b => .ok (a < b)
  | .vInt a, .vBool b => .ok (a < (if b then 1 else 0))
  | .vBool a, .vInt b => .ok ((if a then (1 : Int) else 0) < b)
  | .vBool a, .vBool b => .ok ((if a then (1 : Int) else 0) < (if b then 1 else 0))
  | .vStr a, .vStr b => .ok (a < b)
  | .vDT a, .vDT b => .ok (dtLtB a b)
  | _, _ => .error .typeError

/-- Dict read `d[k]`, as `Option` (the call sites decide whether a miss is
`KeyError` or has a default). -/
def dictGet (d : List (String × α)) (k : String) : Option α :=
  List.lookup k d

/-- Dict write `d[k] = v`: replaces in place if `k` is present, appends
otherwise (CPython insertion-order semantics). -/
def dictSet [DecidableEq κ] (d : List (κ × α)) (k : κ) (v : α) : List (κ × α) :=
  match d with
  | [] => [(k, v)]
  | (k1, v1) :: rest => if k1 = k then (k1, v) :: rest else (k1, v1) :: dictSet rest k v

/-! ## Schema engine (`gpsdio/schema.py`) -/

/-- One `_FIELDS` entry.  `build_schema` reads only the optional
`sub_name` key (via `.get('sub_name', fld)`); the module docstring
documents the alias under the key `name` ("Use this name instead of the
dict key"), which is the key the built-in definitions actually carry.
Both are modelled; the remaining metadata (`validate`, `units`,
`description`, `default`) is never read by any function under
verification and is omitted. -/
structure FieldDef where
  sub_name : Option String := none
  name : Option String := none
deriving Repr, DecidableEq

/-- The built-in `_FIELDS` table, part 1 (alias keys only; see `FieldDef`). -/
def gpsdioFields1 : List (String × FieldDef) := [
  ("type", {}),
  ("repeat", {}),
  ("mmsi", {}),
  ("status", {}),
  ("turn", {}),
  ("speed", {}),
  ("accuracy", {}),
  ("lon", {}),
  ("lat", {}),
  ("course", {}),
  ("heading", {}),
  ("second", {}),
  ("maneuver", {}),
  ("raim", {}),
  ("regional", {}),
  ("radio", {}),
  ("year", {}),
  ("month", {}),
  ("day", {}),
  ("hour", {}),
  ("minute", {}),
  ("epfd", {}),
  ("ais_version", {}),
  ("imo", {}),
  ("callsign", {}),
  ("shiptype", {}),
  ("to_bow", {}),
  ("to_stern", {})
]

/-- The built-in `_FIELDS` table, part 2 (alias keys only; see `FieldDef`). -/
def gpsdioFields2 : List (String × FieldDef) := [
  ("to_port", {}),
  ("to_starboard", {}),
  ("draught", {}),
  ("dte", {}),
  ("seqno", {}),
  ("dest_mmsi", {}),
  ("retransmit", {}),
  ("dac", {}),
  ("fid", {}),
  ("data", {}),
  ("mmsi1", {}),
  ("mmsiseq1", {}),
  ("mmsi2", {}),
  ("mmsiseq2", {}),
  ("mmsi3", {}),
  ("mmsiseq3", {}),
  ("mmsi4", {}),
  ("mmsiseq4", {}),
  ("alt", {}),
  ("speed9", { name := some "speed" }),
  ("assigned", {}),
  ("text", {}),
  ("type1_1", {}),
  ("offset1_1", {}),
  ("offset1_2", {}),
  ("offset2_1", {}),
  ("type1_2", {}),
  ("type2_1", {})
]

/-- The built-in `_FIELDS` table, part 3 (alias keys only; see `FieldDef`). -/
def gpsdioFields3 : List (String × FieldDef) := [
  ("offset1", {}),
  ("offset2", {}),
  ("offset3", {}),
  ("offset4", {}),
  ("increment1", {}),
  ("increment2", {}),
  ("increment3", {}),
  ("increment4", {}),
  ("spare", {}),
  ("cs", {}),
  ("display", {}),
  ("dsc", {}),
  ("band", {}),
  ("msg22", {}),
  ("number1", {}),
  ("number2", {}),
  ("number3", {}),
  ("number4", {}),
  ("timeout1", {}),
  ("timeout2", {}),
  ("timeout3", {}),
  ("timeout4", {}),
  ("aid_type", {}),
  ("name_extension", {}),
  ("txrx", {}),
  ("power", {}),
  ("ne_lon", {}),
  ("ne_lat", {})
]

/-- The built-in `_FIELDS` table, part 4 (alias keys only; see `FieldDef`). -/
def gpsdioFields4 : List (String × FieldDef) := [
  ("sw_lon", {}),
  ("sw_lat", {}),
  ("dest1", {}),
  ("dest2", {}),
  ("band_a", {}),
  ("band_b", {}),
  ("zonesize", {}),
  ("station_type", {}),
  ("ship_type", {}),
  ("interval", {}),
  ("quiet", {}),
  ("partno", {}),
  ("vendorid", {}),
  ("model", {}),
  ("serial", {}),
  ("mothership_mmsi", {}),
  ("addressed", {}),
  ("structured", {}),
  ("app_id", {}),
  ("gnss", {}),
  ("destination", {}),
  ("shipname", {}),
  ("reserved", {}),
  ("name", {}),
  ("off_position", {}),
  ("virtual_aid", {}),
  ("channel_a", {}),
  ("channel_b", {})
]

/-- The built-in `_FIELDS` table, part 5 (alias keys only; see `FieldDef`). -/
def gpsdioFields5 : List (String × FieldDef) := [
  ("timestamp", {})
]

/-- The built-in `_FIELDS` table. -/
def gpsdioFields : List (String × FieldDef) :=
  gpsdioFields1 ++ gpsdioFields2 ++ gpsdioFields3 ++ gpsdioFields4 ++ gpsdioFields5

/-- The built-in `_FIELDS_BY_TYPE` table, part 1. -/
def gpsdioFieldsByType1 : List (Int × List String) := [
  (1, ["accuracy", "course", "heading", "lat", "lon", "maneuver", "mmsi", "spare", "radio", "raim", "repeat", "second", "speed", "status", "turn", "type", "timestamp"]),
  (2, ["accuracy", "course", "heading", "lat", "lon", "maneuver", "mmsi", "spare", "radio", "raim", "repeat", "second", "speed", "status", "turn", "type", "timestamp"]),
  (3, ["accuracy", "course", "heading", "lat", "lon", "maneuver", "mmsi", "spare", "radio", "raim", "repeat", "second", "speed", "status", "turn", "type", "timestamp"]),
  (4, ["accuracy", "day", "epfd", "hour", "lat", "lon", "minute", "mmsi", "month", "radio", "raim", "repeat", "second", "type", "year", "spare", "timestamp"]),
  (5, ["ais_version", "callsign", "day", "destination", "draught", "dte", "epfd", "hour", "imo", "minute", "mmsi", "month", "repeat", "shipname", "shiptype", "to_bow", "to_port", "to_starboard", "to_stern", "type", "spare", "timestamp"]),
  (6, ["type", "repeat", "mmsi", "seqno", "dest_mmsi", "retransmit", "spare", "dac", "fid", "data", "timestamp"]),
  (7, ["day", "destination", "draught", "dte", "epfd", "hour", "minute", "mmsi", "mmsi1", "mmsi2", "mmsi3", "mmsi4", "mmsiseq1", "mmsiseq2", "mmsiseq3", "mmsiseq4", "month", "repeat", "type", "timestamp"]),
  (8, ["assigned", "course", "dac", "data", "destination", "draught", "dte", "fid", "lat", "minute", "mmsi", "radio", "raim", "regional", "repeat", "second", "type", "timestamp"]),
  (9, ["accuracy", "alt", "assigned", "course", "destination", "draught", "dte", "lat", "lon", "minute", "mmsi", "radio", "raim", "regional", "repeat", "second", "speed9", "type", "timestamp"])
]

/-- The built-in `_FIELDS_BY_TYPE` table, part 2. -/
def gpsdioFieldsByType2 : List (Int × List String) := [
  (10, ["assigned", "course", "dest_mmsi", "destination", "draught", "dte", "lat", "lon", "minute", "mmsi", "radio", "raim", "regional", "repeat", "second", "type", "timestamp"]),
  (11, ["accuracy", "day", "epfd", "hour", "lat", "lon", "minute", "mmsi", "month", "radio", "raim", "repeat", "second", "type", "year", "timestamp"]),
  (12, ["assigned", "course", "dest_mmsi", "destination", "draught", "dte", "minute", "mmsi", "radio", "raim", "regional", "repeat", "retransmit", "second", "seqno", "text", "type", "timestamp"]),
  (13, ["day", "destination", "draught", "dte", "epfd", "hour", "minute", "mmsi", "mmsi1", "mmsi2", "mmsi3", "mmsi4", "mmsiseq1", "mmsiseq2", "mmsiseq3", "mmsiseq4", "month", "repeat", "type", "timestamp"]),
  (14, ["assigned", "course", "destination", "draught", "dte", "minute", "mmsi", "radio", "raim", "regional", "repeat", "retransmit", "second", "text", "type", "timestamp"]),
  (15, ["destination", "draught", "dte", "minute", "mmsi", "mmsi1", "mmsi2", "offset1_1", "offset1_2", "offset2_1", "radio", "repeat", "type", "type1_1", "type1_2", "type2_1", "timestamp"]),
  (16, ["destination", "draught", "dte", "increment1", "minute", "mmsi", "mmsi1", "mmsi2", "offset1", "offset2", "offset2_1", "radio", "repeat", "type", "type2_1", "timestamp"]),
  (17, ["data", "lat", "lon", "mmsi", "repeat", "type", "timestamp"]),
  (18, ["accuracy", "assigned", "band", "course", "cs", "display", "dsc", "heading", "lat", "lon", "mmsi", "msg22", "radio", "raim", "regional", "repeat", "reserved", "second", "speed", "type", "timestamp"])
]

/-- The built-in `_FIELDS_BY_TYPE` table, part 3. -/
def gpsdioFieldsByType3 : List (Int × List String) := [
  (19, ["accuracy", "assigned", "course", "dte", "epfd", "heading", "lat", "lon", "mmsi", "raim", "regional", "repeat", "reserved", "second", "shipname", "shiptype", "speed", "to_bow", "to_port", "to_starboard", "to_stern", "type", "timestamp"]),
  (20, ["assigned", "dte", "increment1", "increment2", "increment3", "increment4", "mmsi", "number1", "number2", "number3", "number4", "offset1", "offset2", "offset3", "offset4", "repeat", "timeout1", "timeout2", "timeout3", "timeout4", "type", "timestamp"]),
  (21, ["accuracy", "aid_type", "assigned", "epfd", "lat", "lon", "mmsi", "name", "off_position", "raim", "regional", "repeat", "second", "to_bow", "to_port", "to_starboard", "to_stern", "type", "virtual_aid", "timestamp"]),
  (22, ["addressed", "assigned", "band_a", "band_b", "channel_a", "channel_b", "dest1", "dest2", "mmsi", "ne_lat", "ne_lon", "power", "repeat", "sw_lat", "sw_lon", "txrx", "type", "zonesize", "timestamp"]),
  (23, ["assigned", "band_a", "band_b", "interval", "mmsi", "ne_lat", "ne_lon", "quiet", "repeat", "ship_type", "station_type", "sw_lat", "sw_lon", "txrx", "type", "zonesize", "timestamp"]),
  (24, ["assigned", "callsign", "mmsi", "model", "mothership_mmsi", "partno", "repeat", "serial", "shipname", "shiptype", "to_bow", "to_port", "to_starboard", "to_stern", "type", "vendorid", "zonesize", "timestamp"]),
  (25, ["addressed", "app_id", "assigned", "callsign", "data", "dest_mmsi", "mmsi", "model", "mothership_mmsi", "repeat", "serial", "structured", "to_bow", "to_port", "to_starboard", "to_stern", "type", "zonesize", "timestamp"]),
  (26, ["addressed", "app_id", "assigned", "callsign", "data", "dest_mmsi", "mmsi", "mothership_mmsi", "radio", "repeat", "serial", "structured", "to_bow", "to_port", "to_starboard", "to_stern", "type", "zonesize", "timestamp"]),
  (27, ["accuracy", "assigned", "course", "gnss", "lat", "lon", "mmsi", "mothership_mmsi", "raim", "repeat", "speed", "status", "to_port", "to_starboard", "to_stern", "type", "zonesize", "timestamp"])
]

/-- The built-in `_FIELDS_BY_TYPE` table. -/
def gpsdioFieldsByType : List (Int × List String) :=
  gpsdioFieldsByType1 ++ gpsdioFieldsByType2 ++ gpsdioFieldsByType3


/-- `FIELD_EXTENSIONS`: empty in a process with no external plugins
registered (the `pkg_resources` entry-point loop is outside the core). -/
def FIELD_EXTENSIONS : List (String × FieldDef) := []

/-- `FIELDS_BY_TYPE_EXTENSIONS`: likewise empty. -/
def FIELDS_BY_TYPE_EXTENSIONS : List (Int × List String) := []

/-- `merge_fields(*fields)`: `out = {}` then `out.update(**flds)` for each
table in order — last write wins per key. -/
def merge_fields (fields : List (List (String × α))) : List (String × α) :=
  fields.foldl (fun out flds => flds.foldl (fun acc kv => dictSet acc kv.1 kv.2) out) []

/-- `merge_fields_by_type(*fbt)`: for each table and each `(mtype, fields)`
item, `out[mtype] = tuple(chain(fields, out[mtype]))` over a
`defaultdict(list)`.  Note: the new fields are chained in FRONT of the
accumulated ones, and nothing deduplicates (despite the docstring's
promise of a `set()`). -/
def merge_fields_by_type (fbt : List (List (Int × List String))) : List (Int × List String) :=
  fbt.foldl
    (fun out fdef =>
      fdef.foldl
        (fun out2 tf => dictSet out2 tf.1 (tf.2 ++ (List.lookup tf.1 out2).getD []))
        out)
    []

/-- `build_schema(fields_by_type=None, fields=None, extensions=True)`:
resolves each type's field-name list against the field table.  For each
`fld` the code computes `name = fields[fld].get('sub_name', fld)` and
sets `definition[name] = fields[name]`; a missing key raises `KeyError`. -/
def build_schema (fieldsByType : Option (List (Int × List String)))
    (fields : Option (List (String × FieldDef))) (extensions : Bool) :
    Except PyErr (List (Int × List (String × FieldDef))) :=
  let fbtv := match fieldsByType with
    | none =>
        if extensions then merge_fields_by_type [gpsdioFieldsByType, FIELDS_BY_TYPE_EXTENSIONS]
        else gpsdioFieldsByType
    | some x => x
  let fieldsv := match fields with
    | none =>
        if extensions then merge_fields [gpsdioFields, FIELD_EXTENSIONS]
        else gpsdioFields
    | some x => x
  fbtv.foldlM
    (fun out tf => do
      let definition ← tf.2.foldlM
        (fun defn fld => do
          let fdef ← match dictGet fieldsv fld with
            | some f => Except.ok f
            | none => Except.error PyErr.keyError
          let nm := fdef.sub_name.getD fld
          let target ← match dictGet fieldsv nm with
            | some f => Except.ok f
            | none => Except.error PyErr.keyError
          pure (dictSet defn nm target))
        ([] : List (String × FieldDef))
      pure (dictSet out tf.1 definition))
    ([] : List (Int × List (String × FieldDef)))

/-! ## Timestamp coercion (modelled from the spec)

`GPSDIOStream` applies `schema.schema_import_functions` /
`schema.schema_export_functions` on read / write, but those tables are
not part of the sources under verification — only their caller
(`gpsdio/core.py`) is.  They are modelled here from the spec (§4.3, §8):
coercions are looked up by field name, unknown names pass through
unchanged, `export` is the inverse of `import`, and the one built-in
non-identity coercion is the `timestamp` string ⟷ datetime pair with the
canonical wire form `YYYY-MM-DDTHH:MM:SS.ffffffZ`. -/

/-- Decimal digit character to its value (highest digit matched first;
the order of the arms is immaterial since the patterns are disjoint). -/
def charToDigit : Char → Option Nat
  | '9' => some 9
  | '8' => some 8
  | '7' => some 7
  | '6' => some 6
  | '5' => some 5
  | '4' => some 4
  | '3' => some 3
  | '2' => some 2
  | '1' => some 1
  | '0' => some 0
  | _ => none

/-- Digit value to its character (callers only pass values below 10). -/
def digitToChar : Nat → Char
  | 0 => '0'
  | 1 => '1'
  | 2 => '2'
  | 3 => '3'
  | 4 => '4'
  | 5 => '5'
  | 6 => '6'
  | 7 => '7'
  | 8 => '8'
  | _ => '9'

/-- Two decimal digit characters to a number below 100. -/
def parse2 (a b : Char) : Option Nat :=
  match charToDigit a, charToDigit b with
  | some x, some y => some (10 * x + y)
  | _, _ => none

/-- Four decimal digit characters to a number below 10000. -/
def parse4 (a b c d : Char) : Option Nat :=
  match charToDigit a, charToDigit b, charToDigit c, charToDigit d with
  | some x, some y, some z, some w => some (1000 * x + 100 * y + 10 * z + w)
  | _, _, _, _ => none

/-- Six decimal digit characters to a number below 1000000. -/
def parse6 (a b c d e f : Char) : Option Nat :=
  match charToDigit a, charToDigit b, charToDigit c, charToDigit d,
        charToDigit e, charToDigit f with
  | some u, some v, some w, some x, some y, some z =>
      some (100000 * u + 10000 * v + 1000 * w + 100 * x + 10 * y + z)
  | _, _, _, _, _, _ => none

/-- Zero-padded two-digit rendering (printf %02d for values below 100). -/
def pad2 (n : Nat) : List Char :=
  [digitToChar (n / 10), digitToChar (n % 10)]

/-- Zero-padded four-digit rendering. -/
def pad4 (n : Nat) : List Char :=
  [digitToChar (n / 1000), digitToChar (n / 100 % 10), digitToChar (n / 10 % 10),
   digitToChar (n % 10)]

/-- Zero-padded six-digit rendering. -/
def pad6 (n : Nat) : List Char :=
  [digitToChar (n / 100000), digitToChar (n / 10000 % 10), digitToChar (n / 1000 % 10),
   digitToChar (n / 100 % 10), digitToChar (n / 10 % 10), digitToChar (n % 10)]

/-- Modelled from the spec: parse the canonical timestamp wire form
`YYYY-MM-DDTHH:MM:SS.ffffffZ` (the legal domain of the timestamp
coercion applied on read), with the calendar-range checks of `strptime`. -/
def tsParseChars (cs : List Char) : Option DateTime :=
  match cs with
  | [y1, y2, y3, y4, dash1, o1, o2, dash2, a1, a2, tSep, h1, h2, col1, i1, i2,
     col2, s1, s2, dotSep, u1, u2, u3, u4, u5, u6, zSep] =>
    match parse4 y1 y2 y3 y4, parse2 o1 o2, parse2 a1 a2, parse2 h1 h2,
          parse2 i1 i2, parse2 s1 s2, parse6 u1 u2 u3 u4 u5 u6 with
    | some yr, some mo, some dy, some hr, some mi, some se, some mu =>
        if dash1 = '-' ∧ dash2 = '-' ∧ tSep = 'T' ∧ col1 = ':' ∧ col2 = ':' ∧
           dotSep = '.' ∧ zSep = 'Z' ∧
           1 ≤ mo ∧ mo ≤ 12 ∧ 1 ≤ dy ∧ dy ≤ 31 ∧ hr ≤ 23 ∧ mi ≤ 59 ∧ se ≤ 59 then
          some ⟨yr, mo, dy, hr, mi, se, mu⟩
        else none
    | _, _, _, _, _, _, _ => none
  | _ => none

/-- Modelled from the spec: render a parsed timestamp back into the
canonical wire form (the export coercion, `strftime`-style). -/
def tsFormatChars (d : DateTime) : List Char :=
  pad4 d.year ++ '-' :: pad2 d.month ++ '-' :: pad2 d.day ++ 'T' :: pad2 d.hour ++
  ':' :: pad2 d.minute ++ ':' :: pad2 d.second ++ '.' :: pad6 d.microsecond ++ ['Z']

/-- Modelled from the spec: the `timestamp` import coercion — a string in
the canonical wire form becomes a datetime; anything else raises. -/
def tsImport (v : Value) : Except PyErr Value :=
  match v with
  | .vStr s =>
    match tsParseChars s.data with
    | some d => .ok (.vDT d)
    | none => .error .valueError
  | _ => .error .typeError

/-- Modelled from the spec: the `timestamp` export coercion — a datetime
becomes its canonical wire string; anything else raises. -/
def tsExport (v : Value) : Except PyErr Value :=
  match v with
  | .vDT d => .ok (.vStr (String.mk (tsFormatChars d)))
  | _ => .error .typeError

/-- Modelled from the spec: `schema.schema_import_functions`, the
field-name → import-coercion registry (timestamp is the only built-in
registered coercion; every other name falls through to identity at the
call site in `GPSDIOStream.__next__`). -/
def schema_import_functions : List (String × (Value → Except PyErr Value)) :=
  [("timestamp", tsImport)]

/-- Modelled from the spec: `schema.schema_export_functions`. -/
def schema_export_functions : List (String × (Value → Except PyErr Value)) :=
  [("timestamp", tsExport)]

/-! ## The message stream (`gpsdio/core.py`, `GPSDIOStream`) -/

/-- The per-field coercion loop shared by `__next__` and `write`:
`{fld: table.get(fld, lambda x: x)(v) for fld, v in six.iteritems(msg)}`.
A coercion raising inside the comprehension aborts the whole message. -/
def convertMsg (table : List (String × (Value → Except PyErr Value))) (m : Msg) :
    Except PyErr Msg :=
  m.foldlM
    (fun out kv => do
      let v2 ← match List.lookup kv.1 table with
        | some f => f kv.2
        | none => Except.ok kv.2
      pure (dictSet out kv.1 v2))
    ([] : Msg)

/-- The state of a `GPSDIOStream`.  The wrapped codec object is modelled
by its remaining pull results (`steps`: one raw message or one raised
error per `next()` on it, `StopIteration` once exhausted) and, for write
mode, by the record of accepted messages (`written`).  Constructor
defaults in the source: `mode='r'`, `convert=True`, `skip_failures=False`. -/
structure GPSDIOStream where
  steps : List (Except PyErr Msg)
  written : List Msg
  closedFlag : Bool
  mode : String
  convert : Bool
  skip_failures : Bool

/-- What one call to `__next__` can produce: a value handed to the caller
(a message, or Python `None` when a failure was swallowed), the
`StopIteration` terminal signal, or a raised exception. -/
inductive Yielded where
  | msg (m : Msg)
  | pyNone

/-- Result of one `__next__` call. -/
inductive NextResult where
  | yielded (v : Yielded)
  | stopIteration
  | raised (e : PyErr)

/-- The body of the `try` in `__next__`, for one codec step: a pulled
error or a failing conversion is logged and then either swallowed —
`__next__` falls off the end and returns `None` — or re-raised, per
`skip_failures`. -/
def stepResult (conv skip : Bool) (step : Except PyErr Msg) : Except PyErr Yielded :=
  match step with
  | .error e => if skip then .ok .pyNone else .error e
  | .ok m =>
    if conv then
      match convertMsg schema_import_functions m with
      | .ok m2 => .ok (.msg m2)
      | .error e => if skip then .ok .pyNone else .error e
    else .ok (.msg m)

/-- `GPSDIOStream.__next__`: mode check, closed check, then one codec
pull under the failure policy.  `StopIteration` from the exhausted codec
is re-raised before the generic handler and is never swallowed. -/
def streamNext (s : GPSDIOStream) : NextResult × GPSDIOStream :=
  if s.mode ≠ "r" then (.raised (.ioError "Stream not open for reading"), s)
  else if s.closedFlag then (.raised (.ioError "Cannot operate on a closed stream"), s)
  else
    match s.steps with
    | [] => (.stopIteration, s)
    | step :: rest =>
      let s2 := { s with steps := rest }
      match stepResult s.convert s.skip_failures step with
      | .ok v => (.yielded v, s2)
      | .error e => (.raised e, s2)

/-- `GPSDIOStream.write`: mode check, closed check, then export coercion
under the same failure policy, then forward to the codec sink (modelled
as always accepting; sink failures are outside the claims). -/
def streamWrite (s : GPSDIOStream) (m : Msg) : Option PyErr × GPSDIOStream :=
  if ¬(s.mode = "w" ∨ s.mode = "a") then
    (some (.ioError "Stream not open for writing"), s)
  else if s.closedFlag then (some (.ioError "Cannot operate on a closed stream"), s)
  else
    match (if s.convert then convertMsg schema_export_functions m else .ok m) with
    | .ok m2 => (none, { s with written := s.written ++ [m2] })
    | .error e => if s.skip_failures then (none, s) else (some e, s)

/-- Fuel-indexed iteration: keep calling `__next__`, collecting every
value it hands back, until `StopIteration`; a raised exception aborts the
loop.  (`iterate` supplies fuel that is always sufficient: each collected
value consumes one codec step.) -/
def iterateFuel : Nat → GPSDIOStream → Except PyErr (List Yielded)
  | 0, _ => .ok []
  | n + 1, s =>
    match streamNext s with
    | (.stopIteration, _) => .ok []
    | (.raised e, _) => .error e
    | (.yielded v, s2) => (iterateFuel n s2).map (v :: ·)

/-- Iterating a stream to exhaustion with a Python for-loop. -/
def iterate (s : GPSDIOStream) : Except PyErr (List Yielded) :=
  iterateFuel (s.steps.length + 1) s

/-- Reference unrolling of `iterate` over the codec steps, with the
mode/closed checks hoisted out of the loop (they are invariant: `__next__`
never mutates them); proven equal to `iterate` below. -/
def runSteps (conv skip : Bool) : List (Except PyErr Msg) → Except PyErr (List Yielded)
  | [] => .ok []
  | st :: rest =>
    match stepResult conv skip st with
    | .ok v => (runSteps conv skip rest).map (v :: ·)
    | .error e => .error e

theorem iterateFuel_eq_runSteps (steps : List (Except PyErr Msg)) :
    ∀ (n : Nat) (s : GPSDIOStream), s.steps = steps → s.mode = "r" → s.closedFlag = false →
      steps.length ≤ n → iterateFuel n s = runSteps s.convert s.skip_failures steps := by
  induction steps with
  | nil =>
    intro n s hs hm hc _
    cases n with
    | zero => simp [iterateFuel, runSteps]
    | succ k => simp [iterateFuel, streamNext, hm, hc, hs, runSteps]
  | cons st rest ih =>
    intro n s hs hm hc hn
    cases n with
    | zero => simp at hn
    | succ k =>
      cases hsr : stepResult s.convert s.skip_failures st with
      | ok v =>
        have hnext : streamNext s = (.yielded v, { s with steps := rest }) := by
          simp [streamNext, hm, hc, hs, hsr]
        simp only [iterateFuel, hnext]
        rw [ih k { s with steps := rest } rfl hm hc (by simpa using Nat.le_of_succ_le_succ hn)]
        simp [runSteps, hsr]
      | error e =>
        have hnext : streamNext s = (.raised e, { s with steps := rest }) := by
          simp [streamNext, hm, hc, hs, hsr]
        simp only [iterateFuel, hnext]
        simp [runSteps, hsr]

theorem iterate_eq_runSteps (s : GPSDIOStream) (hm : s.mode = "r")
    (hc : s.closedFlag = false) :
    iterate s = runSteps s.convert s.skip_failures s.steps :=
  iterateFuel_eq_runSteps s.steps (s.steps.length + 1) s rfl hm hc (Nat.le_succ _)

theorem runSteps_ok_msgs (skip : Bool) (msgs : List Msg)
    (h : ∀ m ∈ msgs, convertMsg schema_import_functions m = .ok m) :
    runSteps true skip (msgs.map .ok) = .ok (msgs.map .msg) := by
  induction msgs with
  | nil => simp [runSteps]
  | cons m rest ih =>
    have hm := h m (by simp)
    have ih2 := ih (fun x hx => h x (by simp [hx]))
    simp [runSteps, stepResult, hm, ih2, Except.map]

theorem runSteps_append_ok (skip : Bool) (msgs : List Msg)
    (h : ∀ m ∈ msgs, convertMsg schema_import_functions m = .ok m)
    (rest : List (Except PyErr Msg)) :
    runSteps true skip (msgs.map .ok ++ rest) =
      (runSteps true skip rest).map (msgs.map Yielded.msg ++ ·) := by
  induction msgs with
  | nil => simp; cases runSteps true skip rest <;> simp [Except.map]
  | cons m ms ih =>
    have hm := h m (by simp)
    have ih2 := ih (fun x hx => h x (by simp [hx]))
    simp [runSteps, stepResult, hm, ih2]
    cases runSteps true skip rest <;> simp [Except.map]

/-- C5: end-of-stream (`StopIteration` from the exhausted codec) always
propagates out of `next()` — for every stream in read mode, whatever the
`skip_failures` setting, so iteration loops can terminate. -/
theorem C5_end_of_stream_always_propagates
    (s : GPSDIOStream) (hm : s.mode = "r") (hc : s.closedFlag = false)
    (hs : s.steps = []) : streamNext s = (NextResult.stopIteration, s) := by
  simp [streamNext, hm, hc, hs]

theorem C5_witness :
    streamNext ⟨[], [], false, "r", true, true⟩ =
      (NextResult.stopIteration, ⟨[], [], false, "r", true, true⟩) :=
  C5_end_of_stream_always_propagates ⟨[], [], false, "r", true, true⟩ rfl rfl rfl

/-- C6: a stream constructed in read mode rejects `write()` with a
stream-state error, and a stream in write or append mode rejects
`next()`, regardless of the message or of the stream content — the mode
check precedes everything else. -/
theorem C6_wrong_mode_operations_always_fail :
    (∀ (s : GPSDIOStream) (m : Msg), s.mode = "r" →
        streamWrite s m = (some (PyErr.ioError "Stream not open for writing"), s)) ∧
    (∀ s : GPSDIOStream, s.mode = "w" ∨ s.mode = "a" →
        streamNext s = (NextResult.raised (PyErr.ioError "Stream not open for reading"), s)) := by
  constructor
  · intro s m hm
    simp [streamWrite, hm]
  · intro s hm
    rcases hm with h | h <;> simp [streamNext, h]

theorem C6_witness :
    (streamWrite ⟨[], [], false, "r", true, false⟩ [] =
      (some (PyErr.ioError "Stream not open for writing"), ⟨[], [], false, "r", true, false⟩)) ∧
    (streamNext ⟨[], [], false, "w", true, false⟩ =
      (NextResult.raised (PyErr.ioError "Stream not open for reading"),
        ⟨[], [], false, "w", true, false⟩)) :=
  ⟨C6_wrong_mode_operations_always_fail.1 _ _ rfl,
   C6_wrong_mode_operations_always_fail.2 _ (Or.inl rfl)⟩

/-- A two-good-one-bad codec for the C1 counterexample: two well-formed
records around one malformed pull, `skip_failures=True`. -/
def c1Stream : GPSDIOStream :=
  ⟨[.ok [("mmsi", .vInt 1)], .error .valueError, .ok [("mmsi", .vInt 2)]],
   [], false, "r", true, true⟩

/-- C1, counterexample: with `skip_failures=true` and N = 2 well-formed
records around one malformed one, iterating does NOT yield exactly the
N messages — `__next__` returns `None` for the failed step (the function
falls off the end of the swallowed `except`), so the loop receives three
values: the two messages with a `None` between them. -/
theorem C1_counterexample :
    iterate c1Stream =
      .ok [.msg [("mmsi", .vInt 1)], .pyNone, .msg [("mmsi", .vInt 2)]] ∧
    iterate c1Stream ≠
      .ok [.msg [("mmsi", .vInt 1)], .msg [("mmsi", .vInt 2)]] := by
  refine ⟨rfl, ?_⟩
  intro h
  rw [show iterate c1Stream =
      .ok [.msg [("mmsi", .vInt 1)], .pyNone, .msg [("mmsi", .vInt 2)]] from rfl] at h
  simp at h

/-- C1, amended: with `skip_failures=true`, a source of well-formed
records around one malformed pull yields the well-formed messages with a
`None` placeholder in the malformed position (no message is produced for
that step); with `skip_failures=false`, the first failure is re-raised,
the stream stays open, and a subsequent `next()` yields the following
record. -/
theorem C1_skip_failures_policy (pre post : List Msg) (e : PyErr)
    (hpre : ∀ m ∈ pre, convertMsg schema_import_functions m = .ok m)
    (hpost : ∀ m ∈ post, convertMsg schema_import_functions m = .ok m) :
    (iterate ⟨pre.map .ok ++ .error e :: post.map .ok, [], false, "r", true, true⟩ =
        .ok (pre.map Yielded.msg ++ .pyNone :: post.map Yielded.msg)) ∧
    (∀ rest : List (Except PyErr Msg),
        streamNext ⟨.error e :: rest, [], false, "r", true, false⟩ =
          (.raised e, ⟨rest, [], false, "r", true, false⟩)) ∧
    (∀ (m : Msg) (rest : List (Except PyErr Msg)),
        convertMsg schema_import_functions m = .ok m →
        streamNext ⟨.ok m :: rest, [], false, "r", true, false⟩ =
          (.yielded (.msg m), ⟨rest, [], false, "r", true, false⟩)) := by
  refine ⟨?_, ?_, ?_⟩
  · rw [iterate_eq_runSteps _ rfl rfl]
    show runSteps true true (pre.map .ok ++ .error e :: post.map .ok) = _
    rw [runSteps_append_ok true pre hpre]
    simp [runSteps, stepResult, runSteps_ok_msgs true post hpost, Except.map]
  · intro rest
    simp [streamNext, stepResult]
  · intro m rest hm
    simp [streamNext, stepResult, hm]

theorem C1_witness :
    (iterate ⟨[Except.ok [("mmsi", Value.vInt 7)], Except.error PyErr.valueError,
        Except.ok [("mmsi", Value.vInt 8)]], [], false, "r", true, true⟩ =
      .ok [Yielded.msg [("mmsi", Value.vInt 7)], Yielded.pyNone,
        Yielded.msg [("mmsi", Value.vInt 8)]]) ∧
    (streamNext ⟨[Except.error PyErr.valueError, Except.ok [("mmsi", Value.vInt 8)]],
        [], false, "r", true, false⟩ =
      (NextResult.raised PyErr.valueError,
        ⟨[Except.ok [("mmsi", Value.vInt 8)]], [], false, "r", true, false⟩)) := by
  have h := C1_skip_failures_policy [[("mmsi", Value.vInt 7)]] [[("mmsi", Value.vInt 8)]]
    PyErr.valueError
    (by intro m hm; simp at hm; subst hm; rfl)
    (by intro m hm; simp at hm; subst hm; rfl)
  exact ⟨h.1, h.2.1 [Except.ok [("mmsi", Value.vInt 8)]]⟩

/-- C2: `build_schema` never applies the documented canonical-name alias.
The code looks the alias up under the key `sub_name`
(`fields[fld].get('sub_name', fld)`), but the built-in definitions (and
the module docstring) carry it under the key `name` — no built-in field
has a `sub_name` at all.  Consequently the schema built for type 9 keeps
`speed9` under the key `speed9` (with its unused alias `name='speed'`)
and has no key `speed`, contradicting both the spec and the docstring. -/
theorem C2_alias_never_applied :
    (build_schema none none true).map (fun schema =>
        (((List.lookup 9 schema).getD []).lookup "speed9",
         ((List.lookup 9 schema).getD []).lookup "speed")) =
      .ok (some { sub_name := none, name := some "speed" }, none) ∧
    gpsdioFields.all (fun kv => kv.2.sub_name = none) = true := by
  exact ⟨by rfl, by rfl⟩

/-- C3: `merge_fields_by_type` does NOT collapse duplicates, despite its
docstring ("A `set()` of fields is produced for each type") and the spec:
`out[mtype] = tuple(chain(fields, out[mtype]))` merely concatenates, so a
field listed for the same type in both inputs appears twice. -/
theorem C3_duplicates_not_collapsed :
    merge_fields_by_type [[((1 : Int), ["mmsi"])], [((1 : Int), ["mmsi"])]] =
      [((1 : Int), ["mmsi", "mmsi"])] ∧
    (List.lookup (1 : Int) (merge_fields_by_type
        [[((1 : Int), ["mmsi"])], [((1 : Int), ["mmsi"])]])).getD [] ≠ ["mmsi"] := by
  exact ⟨by rfl, by decide⟩

mutual

/-- Propositional equality on `Value` is decidable (spelled out by hand:
the nested `List` in `vDict` defeats the deriving handler). -/
def valueDecEq (a b : Value) : Decidable (a = b) :=
  match a, b with
  | .vInt x, .vInt y =>
    if h : x = y then isTrue (by rw [h]) else isFalse (by simp [h])
  | .vStr x, .vStr y =>
    if h : x = y then isTrue (by rw [h]) else isFalse (by simp [h])
  | .vBool x, .vBool y =>
    if h : x = y then isTrue (by rw [h]) else isFalse (by simp [h])
  | .vNone, .vNone => isTrue rfl
  | .vDT x, .vDT y =>
    if h : x = y then isTrue (by rw [h]) else isFalse (by simp [h])
  | .vDict x, .vDict y =>
    match msgDecEq x y with
    | isTrue h => isTrue (by rw [h])
    | isFalse h => isFalse (by simp [h])
  | .vInt _, .vStr _ => isFalse (by simp)
  | .vInt _, .vBool _ => isFalse (by simp)
  | .vInt _, .vNone => isFalse (by simp)
  | .vInt _, .vDT _ => isFalse (by simp)
  | .vInt _, .vDict _ => isFalse (by simp)
  | .vStr _, .vInt _ => isFalse (by simp)
  | .vStr _, .vBool _ => isFalse (by simp)
  | .vStr _, .vNone => isFalse (by simp)
  | .vStr _, .vDT _ => isFalse (by simp)
  | .vStr _, .vDict _ => isFalse (by simp)
  | .vBool _, .vInt _ => isFalse (by simp)
  | .vBool _, .vStr _ => isFalse (by simp)
  | .vBool _, .vNone => isFalse (by simp)
  | .vBool _, .vDT _ => isFalse (by simp)
  | .vBool _, .vDict _ => isFalse (by simp)
  | .vNone, .vInt _ => isFalse (by simp)
  | .vNone, .vStr _ => isFalse (by simp)
  | .vNone, .vBool _ => isFalse (by simp)
  | .vNone, .vDT _ => isFalse (by simp)
  | .vNone, .vDict _ => isFalse (by simp)
  | .vDT _, .vInt _ => isFalse (by simp)
  | .vDT _, .vStr _ => isFalse (by simp)
  | .vDT _, .vBool _ => isFalse (by simp)
  | .vDT _, .vNone => isFalse (by simp)
  | .vDT _, .vDict _ => isFalse (by simp)
  | .vDict _, .vInt _ => isFalse (by simp)
  | .vDict _, .vStr _ => isFalse (by simp)
  | .vDict _, .vBool _ => isFalse (by simp)
  | .vDict _, .vNone => isFalse (by simp)
  | .vDict _, .vDT _ => isFalse (by simp)

/-- Decidable equality on message dictionaries (see `valueDecEq`). -/
def msgDecEq (x y : List (String × Value)) : Decidable (x = y) :=
  match x, y with
  | [], [] => isTrue rfl
  | [], _ :: _ => isFalse (by simp)
  | _ :: _, [] => isFalse (by simp)
  | (k1, v1) :: r1, (k2, v2) :: r2 =>
    if hk : k1 = k2 then
      match valueDecEq v1 v2 with
      | isTrue hv =>
        match msgDecEq r1 r2 with
        | isTrue hr => isTrue (by rw [hk, hv, hr])
        | isFalse hr => isFalse (by simp [hr])
      | isFalse hv => isFalse (by simp [hv])
    else isFalse (by simp [hk])

end

instance : DecidableEq Value := valueDecEq

/-! ## Filter generator (`gpsdio/core.py`, `filter`) -/

/-- The predicate expressions handed to `filter` are Python source strings
evaluated with `eval()`; the evaluator itself is external (CPython), so
the expression language is embedded as the fragment the spec's contract
covers: literals, bare names (resolved in the local scope), equality and
ordering comparisons.  A bare name missing from the scope raises
`NameError`; an unsupported ordering comparison raises `TypeError`. -/
inductive Expr where
  | lit : Value → Expr
  | fieldRef : String → Expr
  | eqCmp : Expr → Expr → Expr
  | ltCmp : Expr → Expr → Expr

/-- The local evaluation scope for one message:
`local_scope = msg.copy(); local_scope['msg'] = msg` — every field of the
message plus the whole message under the name `msg` (which shadows a
field of that name). -/
def scopeLookup (m : Msg) (n : String) : Option Value :=
  if n = "msg" then some (.vDict m) else List.lookup n m

/-- Evaluate one expression against one message's scope. -/
def evalExpr (m : Msg) : Expr → Except PyErr Value
  | .lit v => .ok v
  | .fieldRef n =>
    match scopeLookup m n with
    | some v => .ok v
    | none => .error .nameError
  | .eqCmp a b =>
    match evalExpr m a with
    | .error e => .error e
    | .ok va =>
      match evalExpr m b with
      | .error e => .error e
      | .ok vb => .ok (.vBool (valueEq va vb))
  | .ltCmp a b =>
    match evalExpr m a with
    | .error e => .error e
    | .ok va =>
      match evalExpr m b with
      | .error e => .error e
      | .ok vb =>
        match valueLt va vb with
        | .error e => .error e
        | .ok r => .ok (.vBool r)

/-- Python truthiness of an expression result. -/
def truthy : Value → Bool
  | .vBool b => b
  | .vInt i => i != 0
  | .vStr s => s != ""
  | .vNone => false
  | .vDT _ => true
  | .vDict d => !d.isEmpty

/-- The inner expression loop of `filter` for one message: `NameError`
forces `result = False` and breaks (remaining predicates are skipped);
any other exception propagates; a falsy result breaks; if the loop
completes, the `for … else` clause yields the message. -/
def checkExprs (m : Msg) : List Expr → Except PyErr Bool
  | [] => .ok true
  | e :: es =>
    match evalExpr m e with
    | .error .nameError => .ok false
    | .error err => .error err
    | .ok v => if truthy v then checkExprs m es else .ok false

/-- `gpsdio.filter(expressions, stream)`: lazily yield exactly the
messages for which every expression is truthy. -/
def filterStream (expressions : List Expr) : List Msg → Except PyErr (List Msg)
  | [] => .ok []
  | m :: rest =>
    match checkExprs m expressions with
    | .error e => .error e
    | .ok keep =>
      match filterStream expressions rest with
      | .error e => .error e
      | .ok out => .ok (if keep then m :: out else out)

/-- The spec's example predicate `"mmsi == 366268061"`. -/
def mmsiExpr : Expr := .eqCmp (.fieldRef "mmsi") (.lit (.vInt 366268061))

theorem checkExprs_true_all (m : Msg) (es : List Expr)
    (h : checkExprs m es = .ok true) :
    ∀ e ∈ es, ∃ v, evalExpr m e = .ok v ∧ truthy v = true := by
  induction es with
  | nil => simp
  | cons e es ih =>
    intro e2 he2
    unfold checkExprs at h
    rcases hev : evalExpr m e with err | v
    · rcases err <;> simp [hev] at h
    · rw [hev] at h
      by_cases ht : truthy v
      · simp [ht] at h
        rcases List.mem_cons.mp he2 with rfl | he2
        · exact ⟨v, hev, ht⟩
        · exact ih h e2 he2
      · simp [ht] at h

/-- C7: (1) the spec's example — `filter(["mmsi == 366268061"], stream)`
yields exactly the messages whose `mmsi` equals 366268061, excluding
without error those lacking `mmsi`; (2) a predicate comparing an absent
field evaluates to false for that message, raising nothing and
short-circuiting whatever predicates follow; (3) a message is yielded
only if every predicate evaluated truthy on it. -/
theorem C7_filter_predicates :
    (∀ stream : List Msg,
        filterStream [mmsiExpr] stream =
          .ok (stream.filter (fun m =>
            match scopeLookup m "mmsi" with
            | some v => valueEq v (.vInt 366268061)
            | none => false))) ∧
    (∀ (m : Msg) (n : String) (rhs : Expr) (es : List Expr),
        scopeLookup m n = none →
        checkExprs m (.eqCmp (.fieldRef n) rhs :: es) = .ok false) ∧
    (∀ (es : List Expr) (stream out : List Msg),
        filterStream es stream = .ok out →
        ∀ m ∈ out, ∀ e ∈ es, ∃ v, evalExpr m e = .ok v ∧ truthy v = true) := by
  refine ⟨?_, ?_, ?_⟩
  · intro stream
    induction stream with
    | nil => simp [filterStream]
    | cons m rest ih =>
      rcases hml : scopeLookup m "mmsi" with _ | v
      · simp [filterStream, checkExprs, evalExpr, hml, ih]
      · by_cases hv : valueEq v (.vInt 366268061) = true
        · simp [filterStream, checkExprs, evalExpr, hml, truthy, hv, ih]
        · simp [filterStream, checkExprs, evalExpr, hml, truthy, hv, ih,
            Bool.not_eq_true _ ▸ hv]
  · intro m n rhs es hn
    simp [checkExprs, evalExpr, hn]
  · intro es stream
    induction stream with
    | nil =>
      intro out hout
      unfold filterStream at hout
      simp at hout
      subst hout
      simp
    | cons m rest ih =>
      intro out hout
      unfold filterStream at hout
      rcases hchk : checkExprs m es with e | keep
      · simp [hchk] at hout
      · rw [hchk] at hout
        rcases hrest : filterStream es rest with e | outRest
        · simp [hrest] at hout
        · rw [hrest] at hout
          simp at hout
          subst hout
          intro m2 hm2
          by_cases hkeep : keep
          · subst hkeep
            simp at hm2
            rcases hm2 with rfl | hm2
            · exact fun e he => checkExprs_true_all m2 es hchk e he
            · exact ih outRest hrest m2 hm2
          · simp [hkeep] at hm2
            exact ih outRest hrest m2 hm2

/-! ## Sort generator (`gpsdio/core.py`, `sort`) -/

/-- Python comparison of two priority-queue entries `(msg[field], msg)`:
tuple `<` compares the keys with `==` first; on a tie it falls through to
ordering the message dicts themselves — equal dicts make the tuples
compare equal (not less), distinct dicts raise `TypeError` because
dictionaries do not support `<`. -/
def entryLt (a b : Value × Msg) : Except PyErr Bool :=
  if valueEq a.1 b.1 then
    if msgEq a.2 b.2 then .ok false else .error .typeError
  else valueLt a.1 b.1

/-- `queue.PriorityQueue` is standard-library code external to the
sources; it is modelled by its contract — entries come back in ascending
entry order — realised as sorted insertion.  `put` walks the queue and
places the new entry before the first strictly greater one; every
comparison on the way is a fallible Python tuple comparison, so a
duplicate key against a distinct message raises `TypeError` during
buffering, exactly as CPython's heapq raises when it compares the new
entry with an equal-priority neighbour. -/
def pqInsert (x : Value × Msg) : List (Value × Msg) → Except PyErr (List (Value × Msg))
  | [] => .ok [x]
  | y :: ys =>
    match entryLt x y with
    | .error e => .error e
    | .ok true => .ok (x :: y :: ys)
    | .ok false =>
      match pqInsert x ys with
      | .error e => .error e
      | .ok rest => .ok (y :: rest)

/-- The buffering loop of `sort`: pull every message from the source;
enqueue `(msg[field], msg)` when `field` is present, silently drop the
message otherwise. -/
def sortBuild (field : String) : List Msg → List (Value × Msg) → Except PyErr (List (Value × Msg))
  | [], q => .ok q
  | m :: rest, q =>
    match List.lookup field m with
    | some v =>
      match pqInsert (v, m) q with
      | .error e => .error e
      | .ok q2 => sortBuild field rest q2
    | none => sortBuild field rest q

/-- `gpsdio.sort(stream, field)`: eagerly buffer the whole source into
the priority queue, then yield the buffered messages in queue order. -/
def sortStream (stream : List Msg) (field : String) : Except PyErr (List Msg) :=
  match sortBuild field stream [] with
  | .error e => .error e
  | .ok q => .ok (q.map Prod.snd)

theorem pqInsert_sorted (ts : Msg → Int) (x : Value × Msg) (q : List (Value × Msg))
    (hx : x.1 = .vInt (ts x.2))
    (hq : ∀ p ∈ q, p.1 = .vInt (ts p.2))
    (hne : ∀ p ∈ q, ts p.2 ≠ ts x.2)
    (hs : q.Pairwise (fun a b => ts a.2 < ts b.2)) :
    ∃ q2, pqInsert x q = .ok q2 ∧ q2.Perm (x :: q) ∧
      q2.Pairwise (fun a b => ts a.2 < ts b.2) := by
  induction q with
  | nil => exact ⟨[x], rfl, List.Perm.refl _, by simp⟩
  | cons y ys ih =>
    have hy := hq y (by simp)
    have hxy : ts x.2 ≠ ts y.2 := fun h => hne y (by simp) h.symm
    have heqf : valueEq x.1 y.1 = false := by
      rw [hx, hy]
      simp [valueEq, hxy]
    have hlt : entryLt x y = .ok (decide (ts x.2 < ts y.2)) := by
      rw [entryLt, heqf]
      simp [hx, hy, valueLt]
    by_cases hcase : ts x.2 < ts y.2
    · refine ⟨x :: y :: ys, ?_, List.Perm.refl _, ?_⟩
      · simp [pqInsert, hlt, hcase]
      · refine List.Pairwise.cons ?_ hs
        intro z hz
        rcases List.mem_cons.mp hz with rfl | hz
        · exact hcase
        · have := (List.pairwise_cons.mp hs).1 z hz
          omega
    · have hyx : ts y.2 < ts x.2 := by
        rcases lt_or_gt_of_ne hxy with h | h
        · exact absurd h hcase
        · exact h
      obtain ⟨q2, hq2, hperm, hsorted⟩ := ih (fun p hp => hq p (by simp [hp]))
        (fun p hp => hne p (by simp [hp])) (List.pairwise_cons.mp hs).2
      refine ⟨y :: q2, ?_, ?_, ?_⟩
      · simp [pqInsert, hlt, hcase, hq2]
      · exact List.Perm.trans (hperm.cons y) (List.Perm.swap x y ys)
      · refine List.Pairwise.cons ?_ hsorted
        intro z hz
        have hz2 := hperm.mem_iff.mp hz
        rcases List.mem_cons.mp hz2 with rfl | hz2
        · exact hyx
        · exact (List.pairwise_cons.mp hs).1 z hz2

theorem sortBuild_spec (field : String) (ts : Msg → Int) :
    ∀ (stream : List Msg) (q : List (Value × Msg)),
    (∀ m ∈ stream, (List.lookup field m).isSome →
        List.lookup field m = some (.vInt (ts m))) →
    (∀ p ∈ q, p.1 = .vInt (ts p.2)) →
    q.Pairwise (fun a b => ts a.2 < ts b.2) →
    (∀ p ∈ q, ∀ m ∈ stream.filter (fun m => (List.lookup field m).isSome),
        ts p.2 ≠ ts m) →
    (stream.filter (fun m => (List.lookup field m).isSome)).Pairwise
        (fun a b => ts a ≠ ts b) →
    ∃ q2, sortBuild field stream q = .ok q2 ∧
      (q2.map Prod.snd).Perm
        (q.map Prod.snd ++ stream.filter (fun m => (List.lookup field m).isSome)) ∧
      q2.Pairwise (fun a b => ts a.2 < ts b.2) := by
  intro stream
  induction stream with
  | nil =>
    intro q _ _ hs _ _
    exact ⟨q, rfl, by simp, hs⟩
  | cons m rest ih =>
    intro q hvals hq hs hdisj hdist
    rcases hlk : List.lookup field m with _ | v
    · have hfilt : (m :: rest).filter (fun m => (List.lookup field m).isSome) =
          rest.filter (fun m => (List.lookup field m).isSome) := by
        simp [List.filter_cons, hlk]
      rw [hfilt] at hdisj hdist
      obtain ⟨q2, hq2, hperm, hsort⟩ := ih q
        (fun x hx hsome => hvals x (by simp [hx]) hsome) hq hs hdisj hdist
      refine ⟨q2, ?_, ?_, hsort⟩
      · simp [sortBuild, hlk, hq2]
      · rw [hfilt]
        exact hperm
    · have hv : v = .vInt (ts m) := by
        have := hvals m (by simp) (by simp [hlk])
        rw [hlk] at this
        exact Option.some.injEq _ _ ▸ this
      have hfilt : (m :: rest).filter (fun m => (List.lookup field m).isSome) =
          m :: rest.filter (fun m => (List.lookup field m).isSome) := by
        simp [List.filter_cons, hlk]
      rw [hfilt] at hdisj hdist
      have hdistPair := List.pairwise_cons.mp hdist
      obtain ⟨q2, hq2, hperm2, hsort2⟩ := pqInsert_sorted ts (v, m) q (by simpa using hv)
        hq (fun p hp => hdisj p hp m (by simp)) hs
      obtain ⟨q3, hq3, hperm3, hsort3⟩ := ih q2
        (fun x hx hsome => hvals x (by simp [hx]) hsome)
        (fun p hp => by
          rcases List.mem_cons.mp (hperm2.mem_iff.mp hp) with rfl | hp2
          · simpa using hv
          · exact hq p hp2)
        hsort2
        (fun p hp m2 hm2 => by
          rcases List.mem_cons.mp (hperm2.mem_iff.mp hp) with rfl | hp2
          · exact hdistPair.1 m2 hm2
          · exact hdisj p hp2 m2 (by simp [hm2]))
        hdistPair.2
      refine ⟨q3, ?_, ?_, hsort3⟩
      · simp [sortBuild, hlk, hq2, hq3]
      · rw [hfilt]
        have hmap2 : (q2.map Prod.snd).Perm (m :: q.map Prod.snd) := by
          simpa using hperm2.map Prod.snd
        exact hperm3.trans ((hmap2.append_right _).trans List.perm_middle.symm)

/-- C8, amended: over any finite source whose present sort-field values
are integers and pairwise distinct, `sort` buffers everything, silently
drops the messages lacking the field, succeeds, and yields the kept
messages in strictly ascending field order.  (Without the distinctness
proviso it can instead raise `TypeError`; see the counterexample.) -/
theorem C8_sort_ascending_on_distinct_keys (stream : List Msg) (field : String)
    (ts : Msg → Int)
    (hvals : ∀ m ∈ stream, (List.lookup field m).isSome →
        List.lookup field m = some (.vInt (ts m)))
    (hdist : (stream.filter (fun m => (List.lookup field m).isSome)).Pairwise
        (fun a b => ts a ≠ ts b)) :
    ∃ l, sortStream stream field = .ok l ∧
      l.Perm (stream.filter (fun m => (List.lookup field m).isSome)) ∧
      l.Pairwise (fun a b => ts a < ts b) := by
  obtain ⟨q2, hq2, hperm, hsort⟩ := sortBuild_spec field ts stream [] hvals
    (by simp) (by simp) (by simp) hdist
  refine ⟨q2.map Prod.snd, ?_, by simpa using hperm, ?_⟩
  · simp [sortStream, hq2]
  · exact List.pairwise_map.mpr hsort

theorem C7_witness :
    (filterStream [mmsiExpr]
        [[("mmsi", Value.vInt 366268061)], [("mmsi", Value.vInt 123)],
         [("lat", Value.vInt 5)]] =
      .ok [[("mmsi", Value.vInt 366268061)]]) ∧
    (checkExprs [("lat", Value.vInt 5)]
        [Expr.eqCmp (.fieldRef "mmsi") (.lit (.vInt 366268061)),
         Expr.ltCmp (.lit (.vInt 1)) (.lit (.vStr "x"))] = .ok false) := by
  constructor
  · have h := C7_filter_predicates.1
      [[("mmsi", Value.vInt 366268061)], [("mmsi", Value.vInt 123)],
       [("lat", Value.vInt 5)]]
    rw [h]
    rfl
  · exact C7_filter_predicates.2.1 [("lat", Value.vInt 5)] "mmsi"
      (.lit (.vInt 366268061)) [Expr.ltCmp (.lit (.vInt 1)) (.lit (.vStr "x"))] rfl

/-- C8, counterexample to the universal claim: a stream whose two
(distinct) messages tie on the sort field.  Buffering the second message
forces the tuple tie-break onto the message dicts and `sort` raises
`TypeError` instead of yielding the messages in ascending order — it
yields nothing at all. -/
theorem C8_counterexample :
    sortStream [[("timestamp", Value.vInt 1), ("mmsi", Value.vInt 30)],
                [("timestamp", Value.vInt 1), ("mmsi", Value.vInt 40)]] "timestamp" =
      .error .typeError ∧
    (sortStream [[("timestamp", Value.vInt 1), ("mmsi", Value.vInt 30)],
                 [("timestamp", Value.vInt 1), ("mmsi", Value.vInt 40)]]
        "timestamp").toOption = none := by
  exact ⟨rfl, rfl⟩

theorem C8_witness :
    sortStream [[("timestamp", Value.vInt 3)], [("mmsi", Value.vInt 9)],
                [("timestamp", Value.vInt 1)], [("timestamp", Value.vInt 2)]]
        "timestamp" =
      .ok [[("timestamp", Value.vInt 1)], [("timestamp", Value.vInt 2)],
           [("timestamp", Value.vInt 3)]] := by
  have h := C8_sort_ascending_on_distinct_keys
    [[("timestamp", Value.vInt 3)], [("mmsi", Value.vInt 9)],
     [("timestamp", Value.vInt 1)], [("timestamp", Value.vInt 2)]]
    "timestamp"
    (fun m => match List.lookup "timestamp" m with
      | some (Value.vInt i) => i
      | _ => 0)
    (by decide) (by decide)
  obtain ⟨l, h1, _, _⟩ := h
  have h2 : sortStream
      [[("timestamp", Value.vInt 3)], [("mmsi", Value.vInt 9)],
       [("timestamp", Value.vInt 1)], [("timestamp", Value.vInt 2)]] "timestamp" =
      .ok [[("timestamp", Value.vInt 1)], [("timestamp", Value.vInt 2)],
           [("timestamp", Value.vInt 3)]] := rfl
  exact h2

/-- C10: the implicit hazard in `sort` — each message is enqueued as the
tuple `(msg[field], msg)`, so two distinct messages with equal field
values force an ordering comparison of the message dictionaries, which
Python does not define: `sort` raises `TypeError` while buffering instead
of yielding both messages. -/
theorem C10_tie_forces_dict_comparison :
    sortStream [[("timestamp", Value.vInt 5), ("mmsi", Value.vInt 1)],
                [("timestamp", Value.vInt 5), ("mmsi", Value.vInt 2)]] "timestamp" =
      .error .typeError ∧
    ([("timestamp", Value.vInt 5), ("mmsi", Value.vInt 1)] : Msg) ≠
      [("timestamp", Value.vInt 5), ("mmsi", Value.vInt 2)] ∧
    List.lookup "timestamp" ([("timestamp", Value.vInt 5), ("mmsi", Value.vInt 1)] : Msg) =
      List.lookup "timestamp" ([("timestamp", Value.vInt 5), ("mmsi", Value.vInt 2)] : Msg) := by
  exact ⟨rfl, by decide, rfl⟩

/-! ## The open factory (`gpsdio/core.py`, `open`) -/

/-- A target handed to `open`: a path string, or an already-open
file-like object carrying an optional `name` attribute. -/
inductive PyTarget where
  | pathStr (p : String)
  | fileObj (nameAttr : Option String)
deriving Repr, DecidableEq

/-- What `open` composes (the base I/O stack) before wrapping it in a `GPSDIOStream`: the
resolved container-driver name, the compression driver layered under it
(if any), and the handle the composition started from.  `compDriver =
none` means the raw handle was passed to the container driver unchanged. -/
structure OpenResult where
  ioDriver : String
  compDriver : Option String
  rawHandle : PyTarget
deriving Repr, DecidableEq

/-- `gpsdio.open(path, mode, compression=None, driver=None, ...)`: the
driver-resolution and compression-layering logic.  The registries and
suffix detectors live in `gpsdio/drivers.py`, outside the sources under
verification, so they enter as parameters; `detect_compression_type`
raises `ValueError` on an unrecognised suffix and `open` catches exactly
that, treating the target as uncompressed.  A file-like target skips
compression detection entirely ("Don't be too strict about compression").
`"-"` is replaced by the standard stream for the mode first. -/
def gpsdio_open (registeredDrivers registeredCompression : List String)
    (detectFile : Option String → Except PyErr String)
    (detectComp : String → Except PyErr String)
    (target : PyTarget) (mode : String)
    (compression : Option String) (driver : Option String) :
    Except PyErr OpenResult :=
  let target :=
    if target = .pathStr "-" ∧ 'r' ∈ mode.data then PyTarget.fileObj (some "<stdin>")
    else if target = .pathStr "-" ∧ ('w' ∈ mode.data ∨ 'a' ∈ mode.data) then
      PyTarget.fileObj (some "<stdout>")
    else target
  match target with
  | .fileObj nm => do
    let io ← match driver with
      | some d => if d ∈ registeredDrivers then Except.ok d else Except.error PyErr.keyError
      | none => detectFile nm
    let comp ← match compression with
      | some cn =>
        if cn ∈ registeredCompression then Except.ok (some cn)
        else Except.error PyErr.keyError
      | none => Except.ok none
    Except.ok ⟨io, comp, .fileObj nm⟩
  | .pathStr p => do
    let io ← match driver with
      | some d => if d ∈ registeredDrivers then Except.ok d else Except.error PyErr.keyError
      | none => detectFile (some p)
    let comp ← match compression with
      | some cn =>
        if cn ∈ registeredCompression then Except.ok (some cn)
        else Except.error PyErr.keyError
      | none =>
        match detectComp p with
        | .ok c => Except.ok (some c)
        | .error .valueError => Except.ok none
        | .error e => Except.error e
    Except.ok ⟨io, comp, .pathStr p⟩

/-- C9: with no explicit compression argument, failed compression
detection is non-fatal — the target is treated as uncompressed and the
raw handle goes to the container driver unchanged; likewise for an
already-open file-like target (where detection is skipped altogether).
The open succeeds either way, provided the container driver resolves. -/
theorem C9_compression_detection_failure_nonfatal
    (registeredDrivers registeredCompression : List String)
    (detectFile : Option String → Except PyErr String)
    (detectComp : String → Except PyErr String) :
    (∀ (p : String) (ioName : String) (mode : String),
        p ≠ "-" →
        detectComp p = .error .valueError →
        detectFile (some p) = .ok ioName →
        gpsdio_open registeredDrivers registeredCompression detectFile detectComp
            (.pathStr p) mode none none =
          .ok ⟨ioName, none, .pathStr p⟩) ∧
    (∀ (nm : Option String) (ioName : String) (mode : String),
        detectFile nm = .ok ioName →
        gpsdio_open registeredDrivers registeredCompression detectFile detectComp
            (.fileObj nm) mode none none =
          .ok ⟨ioName, none, .fileObj nm⟩) := by
  constructor
  · intro p ioName mode hp hcomp hfile
    simp [gpsdio_open, hp, hcomp, hfile, Except.bind, bind]
  · intro nm ioName mode hfile
    simp [gpsdio_open, hfile, Except.bind, bind]

theorem C9_witness :
    (gpsdio_open ["NewlineJSON"] ["GZIP"] (fun _ => .ok "NewlineJSON")
        (fun _ => .error .valueError) (.pathStr "data.msg") "r" none none =
      .ok ⟨"NewlineJSON", none, .pathStr "data.msg"⟩) ∧
    (gpsdio_open ["NewlineJSON"] ["GZIP"] (fun _ => .ok "NewlineJSON")
        (fun _ => .error .valueError) (.fileObj (some "data.json")) "r" none none =
      .ok ⟨"NewlineJSON", none, .fileObj (some "data.json")⟩) :=
  ⟨(C9_compression_detection_failure_nonfatal ["NewlineJSON"] ["GZIP"]
      (fun _ => .ok "NewlineJSON") (fun _ => .error .valueError)).1
    "data.msg" "NewlineJSON" "r" (by decide) rfl rfl,
   (C9_compression_detection_failure_nonfatal ["NewlineJSON"] ["GZIP"]
      (fun _ => .ok "NewlineJSON") (fun _ => .error .valueError)).2
    (some "data.json") "NewlineJSON" "r" rfl⟩

theorem charToDigit_le (c : Char) (n : Nat) (h : charToDigit c = some n) : n ≤ 9 := by
  unfold charToDigit at h
  split at h
  all_goals first | (cases h; omega) | exact Option.noConfusion h

theorem digitToChar_charToDigit (c : Char) (n : Nat) (h : charToDigit c = some n) :
    digitToChar n = c := by
  unfold charToDigit at h
  split at h
  all_goals first | (cases h; rfl) | exact Option.noConfusion h

theorem pad2_parse2 (a b : Char) (n : Nat) (h : parse2 a b = some n) : pad2 n = [a, b] := by
  unfold parse2 at h
  split at h
  · rename_i x y hx hy
    cases h
    have hx9 := charToDigit_le a x hx
    have hy9 := charToDigit_le b y hy
    unfold pad2
    rw [show (10 * x + y) / 10 = x by omega, show (10 * x + y) % 10 = y by omega,
      digitToChar_charToDigit a x hx, digitToChar_charToDigit b y hy]
  · exact Option.noConfusion h

theorem pad4_parse4 (a b c d : Char) (n : Nat) (h : parse4 a b c d = some n) :
    pad4 n = [a, b, c, d] := by
  unfold parse4 at h
  split at h
  · rename_i x y z w hx hy hz hw
    cases h
    have hx9 := charToDigit_le a x hx
    have hy9 := charToDigit_le b y hy
    have hz9 := charToDigit_le c z hz
    have hw9 := charToDigit_le d w hw
    unfold pad4
    rw [show (1000 * x + 100 * y + 10 * z + w) / 1000 = x by omega,
        show (1000 * x + 100 * y + 10 * z + w) / 100 % 10 = y by omega,
        show (1000 * x + 100 * y + 10 * z + w) / 10 % 10 = z by omega,
        show (1000 * x + 100 * y + 10 * z + w) % 10 = w by omega,
        digitToChar_charToDigit a x hx, digitToChar_charToDigit b y hy,
        digitToChar_charToDigit c z hz, digitToChar_charToDigit d w hw]
  · exact Option.noConfusion h

theorem pad6_parse6 (a b c d e f : Char) (n : Nat) (h : parse6 a b c d e f = some n) :
    pad6 n = [a, b, c, d, e, f] := by
  unfold parse6 at h
  split at h
  · rename_i u v w x y z hu hv hw hx hy hz
    cases h
    have hu9 := charToDigit_le a u hu
    have hv9 := charToDigit_le b v hv
    have hw9 := charToDigit_le c w hw
    have hx9 := charToDigit_le d x hx
    have hy9 := charToDigit_le e y hy
    have hz9 := charToDigit_le f z hz
    unfold pad6
    rw [show (100000 * u + 10000 * v + 1000 * w + 100 * x + 10 * y + z) / 100000 = u by omega,
        show (100000 * u + 10000 * v + 1000 * w + 100 * x + 10 * y + z) / 10000 % 10 = v by omega,
        show (100000 * u + 10000 * v + 1000 * w + 100 * x + 10 * y + z) / 1000 % 10 = w by omega,
        show (100000 * u + 10000 * v + 1000 * w + 100 * x + 10 * y + z) / 100 % 10 = x by omega,
        show (100000 * u + 10000 * v + 1000 * w + 100 * x + 10 * y + z) / 10 % 10 = y by omega,
        show (100000 * u + 10000 * v + 1000 * w + 100 * x + 10 * y + z) % 10 = z by omega,
        digitToChar_charToDigit a u hu, digitToChar_charToDigit b v hv,
        digitToChar_charToDigit c w hw, digitToChar_charToDigit d x hx,
        digitToChar_charToDigit e y hy, digitToChar_charToDigit f z hz]
  · exact Option.noConfusion h

/-- The timestamp printer inverts the parser: a successfully parsed wire
string is reproduced exactly by the canonical rendering. -/
theorem tsFormat_tsParse (cs : List Char) (d : DateTime) (h : tsParseChars cs = some d) :
    tsFormatChars d = cs := by
  unfold tsParseChars at h
  split at h
  · rename_i y1 y2 y3 y4 dash1 o1 o2 dash2 a1 a2 tS h1 h2 c1 i1 i2 c2 s1 s2 dotS u1 u2 u3 u4 u5 u6 zS
    split at h
    · rename_i yr mo dy hr mi se mu hp4 hp2a hp2b hp2c hp2d hp2e hp6
      split at h
      · rename_i hcond
        cases h
        obtain ⟨hd1, hd2, ht, hc1, hc2, hdot, hz, _⟩ := hcond
        subst hd1 hd2 ht hc1 hc2 hdot hz
        unfold tsFormatChars
        rw [pad4_parse4 _ _ _ _ _ hp4, pad2_parse2 _ _ _ hp2a, pad2_parse2 _ _ _ hp2b,
            pad2_parse2 _ _ _ hp2c, pad2_parse2 _ _ _ hp2d, pad2_parse2 _ _ _ hp2e,
            pad6_parse6 _ _ _ _ _ _ _ hp6]
        rfl
      · exact Option.noConfusion h
    · exact Option.noConfusion h
  · exact Option.noConfusion h

/-- C4: round-trip stability of the per-field coercions — for every
registered field name, exporting what import produced restores the
canonical wire representation of the legal raw value (legal = accepted by
the import coercion; for the canonical-form timestamp strings the round
trip is the identity).  Unregistered names use identity coercion at both
call sites, so their round trip is trivial. -/
theorem C4_import_export_roundtrip :
    ∀ (nm : String) (imp exp2 : Value → Except PyErr Value),
      (nm, imp) ∈ schema_import_functions →
      (nm, exp2) ∈ schema_export_functions →
      ∀ v v2, imp v = .ok v2 → exp2 v2 = .ok v := by
  intro nm imp exp2 hi he v v2 hiv
  simp [schema_import_functions] at hi
  simp [schema_export_functions] at he
  obtain ⟨hnm, rfl⟩ := hi
  obtain ⟨_, rfl⟩ := he
  unfold tsImport at hiv
  split at hiv
  · rename_i s
    rcases hp : tsParseChars s.data with _ | d
    · rw [hp] at hiv
      exact Except.noConfusion hiv
    · rw [hp] at hiv
      cases hiv
      show Except.ok (Value.vStr ⟨tsFormatChars d⟩) = Except.ok (Value.vStr s)
      rw [tsFormat_tsParse s.data d hp]
  · exact Except.noConfusion hiv

theorem C4_witness :
    tsImport (Value.vStr "2015-01-02T03:04:05.000006Z") =
      .ok (Value.vDT ⟨2015, 1, 2, 3, 4, 5, 6⟩) ∧
    tsExport (Value.vDT ⟨2015, 1, 2, 3, 4, 5, 6⟩) =
      .ok (Value.vStr "2015-01-02T03:04:05.000006Z") :=
  ⟨rfl,
   C4_import_export_roundtrip "timestamp" tsImport tsExport
    (List.mem_singleton.mpr rfl) (List.mem_singleton.mpr rfl)
    (Value.vStr "2015-01-02T03:04:05.000006Z") (Value.vDT ⟨2015, 1, 2, 3, 4, 5, 6⟩) rfl⟩
